import Mathlib

/-! Shallow embedding of the smart-store data-preparation and warehouse-load
pipeline: pandas dataframes are modelled as a list of column names plus a list
of rows of optional values (`none` stands for NaN / a missing entry).  The
cleaning steps of `prepare_customers_data.py` and `prepare_products_data.py`
and the warehouse loader of `etl_to_dw.py` are translated line by line.

Each cleaning step is modelled as a function returning a pair: the first
component is the state of the dataframe object the caller passed in after the
call (pandas column assignment and `inplace=True` operations mutate it, plain
rebinding of the local variable does not), the second is the value the Python
function returns (`Except` when the body can raise `KeyError`/`IndexError`). -/

/-- A scalar value in a dataframe cell: a string or a (rational) number. -/
inductive Val : Type where
  | str : String → Val
  | num : ℚ → Val
deriving DecidableEq, Repr

/-- A cell: `none` models NaN / a missing value. -/
abbrev Cell : Type := Option Val

/-- A row, aligned positionally with the dataframe's column list. -/
abbrev Row : Type := List Cell

/-- A pandas dataframe: named columns and rows of cells. -/
structure DataFrame : Type where
  cols : List String
  rows : List Row
deriving DecidableEq, Repr

/-- Index of a column name, `none` when the column is absent
(a pandas `df[c]` access then raises `KeyError`). -/
def colIdx (df : DataFrame) (c : String) : Option Nat :=
  df.cols.findIdx? (fun x => x == c)

/-- The cell of row `r` in column position `i` (missing when the row is short). -/
def cellAt (r : Row) (i : Nat) : Cell :=
  match r.get? i with
  | some c => c
  | none => none

/-- Replace a missing entry at position `i` by `v` (pandas `fillna` on one row). -/
def fillCell (i : Nat) (v : Val) (r : Row) : Row :=
  match cellAt r i with
  | none => r.set i (some v)
  | some _ => r

/-- pandas `df[c].fillna(v)`: fill every missing entry of column `i` with `v`. -/
def fillCol (df : DataFrame) (i : Nat) (v : Val) : DataFrame :=
  { df with rows := df.rows.map (fillCell i v) }

/-- pandas `df.dropna(subset=[c])`: keep the rows whose column-`i` entry is present. -/
def dropnaCol (df : DataFrame) (i : Nat) : DataFrame :=
  { df with rows := df.rows.filter (fun r => (cellAt r i).isSome) }

/-- pandas `df[c] > b` on one cell: `NaN` and non-numeric values compare false. -/
def cellGtNum (c : Cell) (b : ℚ) : Bool :=
  match c with
  | some (Val.num q) => b < q
  | _ => false

/-- pandas `df[c] < b` on one cell. -/
def cellLtNum (c : Cell) (b : ℚ) : Bool :=
  match c with
  | some (Val.num q) => q < b
  | _ => false

/-- pandas `df[c] >= b` on one cell. -/
def cellGeNum (c : Cell) (b : ℚ) : Bool :=
  match c with
  | some (Val.num q) => b ≤ q
  | _ => false

/-- pandas `df[c] <= b` on one cell. -/
def cellLeNum (c : Cell) (b : ℚ) : Bool :=
  match c with
  | some (Val.num q) => q ≤ b
  | _ => false

/-- `.str.strip()`: drop leading and trailing whitespace characters. -/
def stripChars (l : List Char) : List Char :=
  ((l.dropWhile Char.isWhitespace).reverse.dropWhile Char.isWhitespace).reverse

/-- `.str.replace(" ", "_")` for the one-character pattern used by the scripts. -/
def spaceToUnderscore (c : Char) : Char :=
  if c = ' ' then '_' else c

/-- Column-name cleaning of `prepare_customers_data.py` line 168:
`df.columns.str.strip().str.lower().str.replace(" ", "_")`. -/
def normNameCustomers (s : String) : String :=
  String.mk (((stripChars s.data).map Char.toLower).map spaceToUnderscore)

/-- Column-name cleaning of `prepare_products_data.py` line 250:
`df.columns.str.strip().str.replace(' ', '_')` (no lowercasing). -/
def normNameProducts (s : String) : String :=
  String.mk ((stripChars s.data).map spaceToUnderscore)

/-- pandas `drop_duplicates(keep='first')` generalised over a key function:
keep a row when its key has not been seen earlier. -/
def dedupByAux {α κ : Type} [DecidableEq κ] (key : α → κ) : List κ → List α → List α
  | _, [] => []
  | seen, r :: rs =>
    if key r ∈ seen then dedupByAux key seen rs
    else r :: dedupByAux key (key r :: seen) rs

/-- Keep the first occurrence of each key, in the original order. -/
def dedupBy {α κ : Type} [DecidableEq κ] (key : α → κ) (l : List α) : List α :=
  dedupByAux key [] l

namespace Customers

/-- `remove_duplicates` of prepare_customers_data.py: `df = df.drop_duplicates()`
(full-row deduplication, keep first; a rebind, so the caller's table is untouched). -/
def remove_duplicates (df : DataFrame) : DataFrame × DataFrame :=
  (df, { df with rows := dedupBy id df.rows })

/-- `handle_missing_values` of prepare_customers_data.py:
`df['Name'] = df['Name'].fillna('Unknown')` (mutates the caller's table), then
`df = df.dropna(subset=['CustomerID'])` (a rebind).  Reading a missing column
raises `KeyError`. -/
def handle_missing_values (df : DataFrame) : DataFrame × Except String DataFrame :=
  match colIdx df "Name" with
  | none => (df, Except.error "KeyError: Name")
  | some i =>
    let df1 := fillCol df i (Val.str "Unknown")
    match colIdx df1 "CustomerID" with
    | none => (df1, Except.error "KeyError: CustomerID")
    | some j => (df1, Except.ok (dropnaCol df1 j))

/-- `remove_outliers` of prepare_customers_data.py:
`df = df[(df['AmountSpent'] > 200) & (df['AmountSpent'] < 10000)]`. -/
def remove_outliers (df : DataFrame) : DataFrame × Except String DataFrame :=
  match colIdx df "AmountSpent" with
  | none => (df, Except.error "KeyError: AmountSpent")
  | some i =>
    let kept := df.rows.filter (fun r => cellGtNum (cellAt r i) 200 && cellLtNum (cellAt r i) 10000)
    (df, Except.ok { df with rows := kept })

/-- The cleaning portion of `main` in prepare_customers_data.py: clean the
column names, then remove duplicates, handle missing values and remove
outliers, threading the returned dataframe and propagating any exception. -/
def clean (df : DataFrame) : Except String DataFrame :=
  let df0 : DataFrame := { df with cols := df.cols.map normNameCustomers }
  let df1 := (remove_duplicates df0).2
  match (handle_missing_values df1).2 with
  | Except.error e => Except.error e
  | Except.ok df2 => (remove_outliers df2).2

end Customers

namespace Products

/-- `remove_duplicates` of prepare_products_data.py: if `'ProductID'` is absent
the input is returned unchanged; otherwise `df = df.drop_duplicates(subset=["ProductID"])`
(a rebind to a fresh table) followed by `df.drop_duplicates(inplace=True)` on that
fresh table (full-row deduplication).  The caller's table is never mutated. -/
def remove_duplicates (df : DataFrame) : DataFrame × DataFrame :=
  match colIdx df "ProductID" with
  | none => (df, df)
  | some i =>
    let d1 : DataFrame := { df with rows := dedupBy (fun r => cellAt r i) df.rows }
    (df, { d1 with rows := dedupBy id d1.rows })

/-- The numeric, non-missing entries of column `i` (pandas skips NaN). -/
def numsOf (df : DataFrame) (i : Nat) : List ℚ :=
  df.rows.filterMap (fun r =>
    match cellAt r i with
    | some (Val.num q) => some q
    | _ => none)

/-- The non-missing entries of column `i`. -/
def valsOf (df : DataFrame) (i : Nat) : List Val :=
  df.rows.filterMap (fun r => cellAt r i)

/-- pandas `Series.median()` over the non-missing values: the middle element of
the sorted list, or the mean of the two middle elements; NaN (here `none`) for
an empty series. -/
def median (l : List ℚ) : Option ℚ :=
  let s := List.insertionSort (· ≤ ·) l
  let n := s.length
  if n = 0 then none
  else if n % 2 = 1 then s.get? (n / 2)
  else
    match s.get? (n / 2 - 1), s.get? (n / 2) with
    | some a, some b => some ((a + b) / 2)
    | _, _ => none

/-- Lexicographic comparison of character lists (the order of Python string
comparison, by code point). -/
def charListLe : List Char → List Char → Bool
  | [], _ => true
  | _ :: _, [] => false
  | a :: as, b :: bs =>
    if a < b then true
    else if b < a then false
    else charListLe as bs

/-- A total comparison on values, numbers before strings, used to order the
candidates of `Series.mode()` the way pandas sorts them. -/
def valLe : Val → Val → Bool
  | Val.num a, Val.num b => a ≤ b
  | Val.num _, Val.str _ => true
  | Val.str _, Val.num _ => false
  | Val.str a, Val.str b => charListLe a.data b.data

/-- The largest multiplicity occurring in `l`. -/
def maxCount (l : List Val) : Nat :=
  (l.map (fun v => l.count v)).foldr Nat.max 0

/-- pandas `Series.mode()[0]`: the smallest among the most frequent values,
`none` when the series is empty (pandas then raises `IndexError`). -/
def modeFirst (l : List Val) : Option Val :=
  (l.filter (fun v => l.count v == maxCount l)).foldl
    (fun acc v =>
      match acc with
      | none => some v
      | some w => if valLe v w then some v else some w) none

/-- `handle_missing_values` of prepare_products_data.py.  All four operations
are `inplace=True` (or act on a column of the caller's table), so the caller's
table is mutated step by step; reading a missing column raises `KeyError`, and
`mode()[0]` raises `IndexError` when the `Category` column is all-missing:
`df['ProductName'].fillna('Unknown Product', inplace=True)`,
`df['UnitPrice'].fillna(df['UnitPrice'].median(), inplace=True)`,
`df['Category'].fillna(df['Category'].mode()[0], inplace=True)`,
`df.dropna(subset=['ProductID'], inplace=True)`. -/
def handle_missing_values (df : DataFrame) : DataFrame × Except String DataFrame :=
  match colIdx df "ProductName" with
  | none => (df, Except.error "KeyError: ProductName")
  | some i =>
    let d1 := fillCol df i (Val.str "Unknown Product")
    match colIdx d1 "UnitPrice" with
    | none => (d1, Except.error "KeyError: UnitPrice")
    | some j =>
      let d2 :=
        match median (numsOf d1 j) with
        | none => d1
        | some m => fillCol d1 j (Val.num m)
      match colIdx d2 "Category" with
      | none => (d2, Except.error "KeyError: Category")
      | some k =>
        match modeFirst (valsOf d2 k) with
        | none => (d2, Except.error "IndexError: mode of empty Category")
        | some m =>
          let d3 := fillCol d2 k m
          match colIdx d3 "ProductID" with
          | none => (d3, Except.error "KeyError: ProductID")
          | some p =>
            let d4 := dropnaCol d3 p
            (d4, Except.ok d4)

/-- pandas `Series.quantile(q)` with the default linear interpolation over the
sorted non-missing values: position `q·(n-1)`, linearly interpolated between
the two neighbouring order statistics. -/
def quantileLin (q : ℚ) (l : List ℚ) : Option ℚ :=
  let s := List.insertionSort (· ≤ ·) l
  let n := s.length
  if n = 0 then none
  else
    let h : ℚ := q * ((n : ℚ) - 1)
    let i : Nat := h.floor.toNat
    match s.get? i with
    | none => none
    | some a =>
      match s.get? (i + 1) with
      | none => some a
      | some b => some (a + (h - (i : ℚ)) * (b - a))

/-- `remove_outliers` of prepare_products_data.py: `Q1 = df['UnitPrice'].quantile(0.25)`,
`Q3 = df['UnitPrice'].quantile(0.75)`, `IQR = Q3 - Q1`, then
`df = df[(df['UnitPrice'] >= Q1 - 1.5*IQR) & (df['UnitPrice'] <= Q3 + 1.5*IQR)]`.
On an empty series the quantiles are NaN, every comparison is false and no row
survives. -/
def remove_outliers (df : DataFrame) : DataFrame × Except String DataFrame :=
  match colIdx df "UnitPrice" with
  | none => (df, Except.error "KeyError: UnitPrice")
  | some i =>
    match quantileLin (1/4) (numsOf df i), quantileLin (3/4) (numsOf df i) with
    | some q1, some q3 =>
      let iqr := q3 - q1
      let lower := q1 - (3/2) * iqr
      let upper := q3 + (3/2) * iqr
      let kept := df.rows.filter (fun r => cellGeNum (cellAt r i) lower && cellLeNum (cellAt r i) upper)
      (df, Except.ok { df with rows := kept })
    | _, _ => (df, Except.ok { df with rows := [] })

/-- `standardize_formats` of prepare_products_data.py: every transformation in
the body is commented out, so it returns the table unchanged. -/
def standardize_formats (df : DataFrame) : DataFrame × DataFrame :=
  (df, df)

/-- `validate_data` of prepare_products_data.py: only logs warnings and returns
the table unchanged. -/
def validate_data (df : DataFrame) : DataFrame × DataFrame :=
  (df, df)

/-- The cleaning portion of `main` in prepare_products_data.py: clean the
column names (strip and replace spaces, no lowercasing), then remove
duplicates, handle missing values, standardize formats, remove outliers and
validate, threading the returned dataframe and propagating any exception. -/
def clean (df : DataFrame) : Except String DataFrame :=
  let df0 : DataFrame := { df with cols := df.cols.map normNameProducts }
  let df1 := (remove_duplicates df0).2
  match (handle_missing_values df1).2 with
  | Except.error e => Except.error e
  | Except.ok df2 =>
    let df3 := (standardize_formats df2).2
    match (remove_outliers df3).2 with
    | Except.error e => Except.error e
    | Except.ok df4 => Except.ok (validate_data df4).2

end Products

namespace Etl

/-- The warehouse state: whether `create_schema` has run, and the rows of the
three tables.  Committed and uncommitted states are both values of this type. -/
structure DW (α : Type) : Type where
  schemaReady : Bool
  customer : List α
  product : List α
  sale : List α
deriving DecidableEq, Repr

/-- `create_schema` of etl_to_dw.py: creates the three tables if absent
(idempotent; modelled as marking the schema ready on the working state). -/
def create_schema {α : Type} (db : DW α) : DW α :=
  { db with schemaReady := true }

/-- The order in which `delete_existing_records` issues its `DELETE FROM`
statements (etl_to_dw.py lines 59-61). -/
def deleteOrder : List String :=
  ["customer", "product", "sale"]

/-- Position of table `t` in a delete order. -/
def posOf (ord : List String) (t : String) : Nat :=
  ord.findIdx (fun x => x == t)

/-- Execute one `DELETE FROM t` statement. -/
def deleteFrom {α : Type} (db : DW α) (t : String) : DW α :=
  if t = "customer" then { db with customer := [] }
  else if t = "product" then { db with product := [] }
  else if t = "sale" then { db with sale := [] }
  else db

/-- `delete_existing_records` of etl_to_dw.py: the three deletes, in order. -/
def delete_existing_records {α : Type} (db : DW α) : DW α :=
  deleteOrder.foldl deleteFrom db

/-- The sqlite3 connection of a run: the durably committed database state and
the connection's working view, which additionally contains the statements of
the implicit transaction still pending (Python sqlite3 legacy transaction
control: an implicit `BEGIN` is opened before DML, DDL runs in autocommit). -/
structure Conn (α : Type) : Type where
  committed : DW α
  working : DW α

/-- A `commit` on the connection (issued by `conn.commit()` and by pandas'
SQLite `to_sql` on success): the pending work becomes durable. -/
def commitConn {α : Type} (c : Conn α) : Conn α :=
  ⟨c.working, c.working⟩

/-- A `rollback` on the connection (issued by pandas' SQLite `to_sql` on
failure): everything pending — earlier deletes and this call's partial
inserts alike — is discarded. -/
def rollbackConn {α : Type} (c : Conn α) : Conn α :=
  ⟨c.committed, c.committed⟩

/-- `insert_customers` of etl_to_dw.py: the `to_sql` append wrapped in
`try/except`; on failure the exception is caught and printed
(`Error inserting customer data: e`) and never propagates.  pandas' SQLite
fallback runs each `to_sql` through `run_transaction` on the shared
connection: on success it appends the rows and commits everything pending, on
failure it rolls the whole pending transaction back. -/
def insert_customers {α : Type} (rows : List α) (outcome : Except String Unit)
    (c : Conn α) (log : List String) : Conn α × List String :=
  match outcome with
  | Except.ok _ =>
    (commitConn { c with working := { c.working with customer := c.working.customer ++ rows } },
      log)
  | Except.error e => (rollbackConn c, log ++ ["Error inserting customer data: " ++ e])

/-- `insert_products` of etl_to_dw.py, same try/except and `to_sql`
commit-on-success / rollback-on-failure shape. -/
def insert_products {α : Type} (rows : List α) (outcome : Except String Unit)
    (c : Conn α) (log : List String) : Conn α × List String :=
  match outcome with
  | Except.ok _ =>
    (commitConn { c with working := { c.working with product := c.working.product ++ rows } },
      log)
  | Except.error e => (rollbackConn c, log ++ ["Error inserting product data: " ++ e])

/-- `insert_sales` of etl_to_dw.py, same try/except and `to_sql`
commit-on-success / rollback-on-failure shape. -/
def insert_sales {α : Type} (rows : List α) (outcome : Except String Unit)
    (c : Conn α) (log : List String) : Conn α × List String :=
  match outcome with
  | Except.ok _ =>
    (commitConn { c with working := { c.working with sale := c.working.sale ++ rows } },
      log)
  | Except.error e => (rollbackConn c, log ++ ["Error inserting sales data: " ++ e])

/-- The environment a run of `load_data_to_db` faces: the outcome of each of
the three `pd.read_csv` calls, and whether each table's `to_sql` append
succeeds or raises (e.g. a constraint violation). -/
structure RunEnv (α : Type) : Type where
  readCustomers : Except String (List α)
  readProducts : Except String (List α)
  readSales : Except String (List α)
  insCustomers : Except String Unit
  insProducts : Except String Unit
  insSales : Except String Unit

/-- Observable result of a run of `load_data_to_db`: the state that is durably
committed when the connection is closed, whether the connection was closed,
what was printed for caught insert errors, and the run's own outcome (an
uncaught exception propagates out of the `try/finally`). -/
structure RunResult (α : Type) : Type where
  committed : DW α
  closed : Bool
  log : List String
  outcome : Except String Unit

/-- `load_data_to_db` of etl_to_dw.py, under Python sqlite3 legacy
transaction control.  `create_schema` runs first on a fresh connection, so its
`CREATE TABLE IF NOT EXISTS` statements execute in autocommit mode (no
implicit transaction is open yet) and persist immediately; the `DELETE`
statements of `delete_existing_records` are DML, open the implicit transaction
and stay pending.  An exception from any `read_csv` propagates (there is no
except clause), so nothing further commits: the `finally` closes the
connection and the pending deletes are discarded.  Each `insert_*` swallows
its own error, but its `to_sql` commits the shared connection on success and
rolls it back on failure, so a failed first load also undoes the pending
deletes; the final `conn.commit()` makes whatever is still pending durable. -/
def load_data_to_db {α : Type} (env : RunEnv α) (initial : DW α) : RunResult α :=
  let c0 : Conn α := ⟨create_schema initial, create_schema initial⟩
  let c1 : Conn α := { c0 with working := delete_existing_records c0.working }
  match env.readCustomers with
  | Except.error e =>
    { committed := c1.committed, closed := true, log := [], outcome := Except.error e }
  | Except.ok customersRows =>
    match env.readProducts with
    | Except.error e =>
      { committed := c1.committed, closed := true, log := [], outcome := Except.error e }
    | Except.ok productsRows =>
      match env.readSales with
      | Except.error e =>
        { committed := c1.committed, closed := true, log := [], outcome := Except.error e }
      | Except.ok salesRows =>
        let s1 := insert_customers customersRows env.insCustomers c1 []
        let s2 := insert_products productsRows env.insProducts s1.1 s1.2
        let s3 := insert_sales salesRows env.insSales s2.1 s2.2
        let cf := commitConn s3.1
        { committed := cf.committed, closed := true, log := s3.2, outcome := Except.ok () }

end Etl

/-! ### Lemmas about first-occurrence deduplication -/

theorem dedupByAux_length_le {α κ : Type} [DecidableEq κ] (key : α → κ)
    (seen : List κ) (l : List α) :
    (dedupByAux key seen l).length ≤ l.length := by
  induction l generalizing seen with
  | nil => simp [dedupByAux]
  | cons a t ih =>
    simp only [dedupByAux]
    split
    · exact Nat.le_succ_of_le (ih seen)
    · simpa using ih (key a :: seen)

theorem dedupByAux_sublist {α κ : Type} [DecidableEq κ] (key : α → κ)
    (seen : List κ) (l : List α) :
    (dedupByAux key seen l).Sublist l := by
  induction l generalizing seen with
  | nil => simp [dedupByAux]
  | cons a t ih =>
    simp only [dedupByAux]
    split
    · exact (ih seen).cons a
    · exact (ih (key a :: seen)).cons₂ a

theorem key_not_mem_seen_of_mem_dedupByAux {α κ : Type} [DecidableEq κ]
    (key : α → κ) (seen : List κ) (l : List α) (x : α)
    (hx : x ∈ dedupByAux key seen l) : key x ∉ seen := by
  induction l generalizing seen with
  | nil => simp [dedupByAux] at hx
  | cons a t ih =>
    simp only [dedupByAux] at hx
    split at hx
    · exact ih seen hx
    · rcases List.mem_cons.mp hx with h | h
      · subst h; assumption
      · intro hmem
        exact ih (key a :: seen) h (List.mem_cons_of_mem _ hmem)

theorem nodup_keys_dedupByAux {α κ : Type} [DecidableEq κ] (key : α → κ)
    (seen : List κ) (l : List α) :
    ((dedupByAux key seen l).map key).Nodup := by
  induction l generalizing seen with
  | nil => simp [dedupByAux]
  | cons a t ih =>
    simp only [dedupByAux]
    split
    · exact ih seen
    · simp only [List.map_cons, List.nodup_cons]
      refine ⟨?_, ih (key a :: seen)⟩
      intro hmem
      rcases List.mem_map.mp hmem with ⟨x, hx, hkx⟩
      exact key_not_mem_seen_of_mem_dedupByAux key _ t x hx (hkx ▸ List.mem_cons_self _ _)

theorem dedupByAux_eq_self {α κ : Type} [DecidableEq κ] (key : α → κ)
    (seen : List κ) (l : List α) (h1 : (l.map key).Nodup)
    (h2 : ∀ x ∈ l, key x ∉ seen) : dedupByAux key seen l = l := by
  induction l generalizing seen with
  | nil => simp [dedupByAux]
  | cons a t ih =>
    simp only [List.map_cons, List.nodup_cons] at h1
    have ha : key a ∉ seen := h2 a (List.mem_cons_self _ _)
    simp only [dedupByAux, if_neg ha]
    refine congrArg (a :: ·) (ih (key a :: seen) h1.2 ?_)
    intro x hx
    simp only [List.mem_cons]
    rintro (hk | hk)
    · exact h1.1 (hk ▸ List.mem_map_of_mem key hx)
    · exact h2 x (List.mem_cons_of_mem _ hx) hk

theorem dedupBy_idem {α κ : Type} [DecidableEq κ] (key : α → κ) (l : List α) :
    dedupBy key (dedupBy key l) = dedupBy key l :=
  dedupByAux_eq_self key [] _ (nodup_keys_dedupByAux key [] l) (by simp)

theorem dedupBy_eq_self_of_nodup_keys {α κ : Type} [DecidableEq κ] (key : α → κ)
    (l : List α) (h : (l.map key).Nodup) : dedupBy key l = l :=
  dedupByAux_eq_self key [] l h (by simp)

/-- Number of occurrences of `a` in `l` (instance-free occurrence count). -/
def countOcc {γ : Type} [DecidableEq γ] (a : γ) : List γ → Nat
  | [] => 0
  | b :: t => (if b = a then 1 else 0) + countOcc a t

theorem not_mem_of_countOcc_eq_zero {γ : Type} [DecidableEq γ] (a : γ) (l : List γ)
    (h : countOcc a l = 0) : a ∉ l := by
  induction l with
  | nil => simp
  | cons b t ih =>
    simp only [countOcc] at h
    by_cases hb : b = a
    · simp [hb] at h
    · have ht := ih (by simpa [hb] using h)
      simp only [List.mem_cons]
      rintro (hc | hc)
      · exact hb hc.symm
      · exact ht hc

theorem mem_dedupByAux_of_count_one {α κ : Type} [DecidableEq κ] (key : α → κ)
    (seen : List κ) (l : List α) (r : α) (h1 : r ∈ l)
    (h2 : countOcc (key r) (l.map key) = 1) (h3 : key r ∉ seen) :
    r ∈ dedupByAux key seen l := by
  induction l generalizing seen with
  | nil => simp at h1
  | cons a t ih =>
    simp only [dedupByAux]
    simp only [List.map_cons, countOcc] at h2
    split
    · rename_i hseen
      have hne : ¬ (key a = key r) := fun hk => h3 (hk ▸ hseen)
      rcases List.mem_cons.mp h1 with h | h
      · exact absurd (congrArg key h.symm) hne
      · refine ih seen h ?_ h3
        simpa [hne] using h2
    · rename_i hseen
      rcases List.mem_cons.mp h1 with h | h
      · exact h ▸ List.mem_cons_self _ _
      · by_cases hk : key a = key r
        · exfalso
          have hz : countOcc (key r) (t.map key) = 0 := by
            simpa [hk] using h2
          exact (not_mem_of_countOcc_eq_zero _ _ hz) (List.mem_map_of_mem key h)
        · refine List.mem_cons_of_mem _ (ih (key a :: seen) h ?_ ?_)
          · simpa [hk] using h2
          · simp only [List.mem_cons]
            rintro (hc | hc)
            · exact hk hc.symm
            · exact h3 hc

theorem mem_dedupBy_of_count_one {α κ : Type} [DecidableEq κ] (key : α → κ)
    (l : List α) (r : α) (h1 : r ∈ l) (h2 : countOcc (key r) (l.map key) = 1) :
    r ∈ dedupBy key l :=
  mem_dedupByAux_of_count_one key [] l r h1 h2 (by simp)

/-- Membership in a row filter on `>` and `<` bounds, unfolded to the cell value. -/
theorem gtlt_filter_true_iff (c : Cell) (lo hi : ℚ) :
    (cellGtNum c lo && cellLtNum c hi) = true ↔
      ∃ q, c = some (Val.num q) ∧ lo < q ∧ q < hi := by
  rcases c with _ | v
  · simp [cellGtNum, cellLtNum]
  · rcases v with s | q
    · simp [cellGtNum, cellLtNum]
    · simp [cellGtNum, cellLtNum]

/-- Membership in a row filter on `>=` and `<=` bounds, unfolded to the cell value. -/
theorem gele_filter_true_iff (c : Cell) (lo hi : ℚ) :
    (cellGeNum c lo && cellLeNum c hi) = true ↔
      ∃ q, c = some (Val.num q) ∧ lo ≤ q ∧ q ≤ hi := by
  rcases c with _ | v
  · simp [cellGeNum, cellLeNum]
  · rcases v with s | q
    · simp [cellGeNum, cellLeNum]
    · simp [cellGeNum, cellLeNum]

/-! ### Concrete tables used by the claim theorems -/

/-- The customers scenario table of the spec:
`[{id:1, amount_spent:50}, {id:1, amount_spent:50}, {id:2, amount_spent:5000}, {id:null, amount_spent:300}]`. -/
def customersScenario : DataFrame :=
  { cols := ["id", "amount_spent"],
    rows := [[some (Val.num 1), some (Val.num 50)],
             [some (Val.num 1), some (Val.num 50)],
             [some (Val.num 2), some (Val.num 5000)],
             [none, some (Val.num 300)]] }

/-- A customers table with exactly the raw headers the cleaning steps name. -/
def customersRawHeaders : DataFrame :=
  { cols := ["CustomerID", "Name", "AmountSpent"],
    rows := [[some (Val.num 1), none, some (Val.num 300)]] }

/-- A customers table with a missing `Name` entry, used to exhibit in-place mutation. -/
def customersMutationInput : DataFrame :=
  { cols := ["CustomerID", "Name"],
    rows := [[some (Val.num 1), none]] }

/-- C1: The claim says the customers cleaning pipeline (column normalization,
remove_duplicates, handle_missing_values, remove_outliers, in that order) maps
the scenario table to the single row `{id:2, amount_spent:5000}`.  On the code
the pipeline instead raises `KeyError`: after `main` lowercases the column
names, `handle_missing_values` still reads the capitalized column `'Name'`
(and `'CustomerID'`), which no longer exists, so no cleaned table is produced. -/
theorem customers_scenario_raises_keyerror :
    Customers.clean customersScenario = Except.error "KeyError: Name" := rfl

/-- C2: The claim says column names are normalized before any rule runs and
every subsequent step references only the normalized names, so each step finds
its columns.  On the code this fails: a customers table that arrives with the
very columns the steps name (`CustomerID`, `Name`, `AmountSpent`) is
normalized to lowercase, after which `handle_missing_values` looks up `'Name'`
and raises `KeyError` — the steps reference the pre-normalization names. -/
theorem normalized_columns_break_later_steps :
    ("Name" ∈ customersRawHeaders.cols ∧ "CustomerID" ∈ customersRawHeaders.cols ∧
      "AmountSpent" ∈ customersRawHeaders.cols) ∧
    Customers.clean customersRawHeaders = Except.error "KeyError: Name" :=
  ⟨by decide, rfl⟩

/-- C3 counterexample: `Customers.handle_missing_values` mutates the table
passed in — `df['Name'] = df['Name'].fillna('Unknown')` assigns into the
caller's dataframe, so after the call the caller's table differs from the
input (the missing `Name` has become `"Unknown"`). -/
theorem handle_missing_values_mutates_caller :
    ¬ ((Customers.handle_missing_values customersMutationInput).1 = customersMutationInput) := by
  decide

/-- The caller-visible effect of `Customers.handle_missing_values` on the
table passed in: the in-place fill of the `Name` column (the later
`df = df.dropna(...)` only rebinds the local variable). -/
def nameFillView (df : DataFrame) : DataFrame :=
  match colIdx df "Name" with
  | none => df
  | some i => fillCol df i (Val.str "Unknown")

/-- `Products.handle_missing_values` either raises, or returns exactly the
caller's mutated table (every operation in its body is in place). -/
theorem products_hmv_shape (df : DataFrame) :
    (Products.handle_missing_values df).2 =
      Except.ok ((Products.handle_missing_values df).1) ∨
    ∃ e, (Products.handle_missing_values df).2 = Except.error e := by
  unfold Products.handle_missing_values
  rcases colIdx df "ProductName" with _ | i
  · exact Or.inr ⟨_, rfl⟩
  dsimp only
  rcases colIdx (fillCol df i (Val.str "Unknown Product")) "UnitPrice" with _ | j
  · exact Or.inr ⟨_, rfl⟩
  dsimp only
  rcases Products.median (Products.numsOf (fillCol df i (Val.str "Unknown Product")) j) with _ | m
  all_goals dsimp only
  · rcases colIdx (fillCol df i (Val.str "Unknown Product")) "Category" with _ | k
    · exact Or.inr ⟨_, rfl⟩
    dsimp only
    rcases Products.modeFirst (Products.valsOf (fillCol df i (Val.str "Unknown Product")) k) with _ | m
    · exact Or.inr ⟨_, rfl⟩
    dsimp only
    rcases colIdx (fillCol (fillCol df i (Val.str "Unknown Product")) k m) "ProductID" with _ | p
    · exact Or.inr ⟨_, rfl⟩
    exact Or.inl rfl
  · rcases colIdx (fillCol (fillCol df i (Val.str "Unknown Product")) j (Val.num m)) "Category"
      with _ | k
    · exact Or.inr ⟨_, rfl⟩
    dsimp only
    rcases Products.modeFirst
        (Products.valsOf (fillCol (fillCol df i (Val.str "Unknown Product")) j (Val.num m)) k)
      with _ | mo
    · exact Or.inr ⟨_, rfl⟩
    dsimp only
    rcases colIdx
        (fillCol (fillCol (fillCol df i (Val.str "Unknown Product")) j (Val.num m)) k mo)
        "ProductID" with _ | p
    · exact Or.inr ⟨_, rfl⟩
    exact Or.inl rfl

/-- C3 amended: `remove_duplicates`, `remove_outliers` and
`standardize_formats` leave the caller's table unchanged, but
`handle_missing_values` mutates it: the customers version fills the missing
`Name` values in place on the caller's table, and the products version
performs all its fills and the key-row drop in place, so on success the
caller's table equals the returned table. -/
theorem cleaning_steps_mutation_profile (df : DataFrame) :
    (Customers.remove_duplicates df).1 = df ∧
    (Customers.remove_outliers df).1 = df ∧
    (Products.remove_duplicates df).1 = df ∧
    (Products.remove_outliers df).1 = df ∧
    (Products.standardize_formats df).1 = df ∧
    (Customers.handle_missing_values df).1 = nameFillView df ∧
    ∀ d, (Products.handle_missing_values df).2 = Except.ok d →
      (Products.handle_missing_values df).1 = d := by
  refine ⟨rfl, ?_, ?_, ?_, rfl, ?_, ?_⟩
  · unfold Customers.remove_outliers
    rcases colIdx df "AmountSpent" with _ | i <;> rfl
  · unfold Products.remove_duplicates
    rcases colIdx df "ProductID" with _ | i <;> rfl
  · unfold Products.remove_outliers
    rcases colIdx df "UnitPrice" with _ | i
    · rfl
    dsimp only
    rcases Products.quantileLin (1/4) (Products.numsOf df i) with _ | q1 <;>
      rcases Products.quantileLin (3/4) (Products.numsOf df i) with _ | q3 <;> rfl
  · unfold Customers.handle_missing_values nameFillView
    rcases colIdx df "Name" with _ | i
    · rfl
    dsimp only
    rcases colIdx (fillCol df i (Val.str "Unknown")) "CustomerID" with _ | j <;> rfl
  · intro d hd
    rcases products_hmv_shape df with hok | ⟨e, he⟩
    · rw [hd] at hok
      exact (Except.ok.inj hok).symm
    · rw [hd] at he
      simp at he

/-- C5 counterexample: the claim says the sale table's rows are deleted before
the product and customer tables'.  In `delete_existing_records` of
etl_to_dw.py the `DELETE FROM sale` statement comes last, after
`DELETE FROM customer` and `DELETE FROM product`, so the delete order does not
put sale first. -/
theorem delete_order_sale_not_first :
    ¬ (Etl.posOf Etl.deleteOrder "sale" < Etl.posOf Etl.deleteOrder "customer" ∧
       Etl.posOf Etl.deleteOrder "sale" < Etl.posOf Etl.deleteOrder "product") := by
  decide

/-- C5 amended: the warehouse reset deletes all rows from all three tables,
but in the order customer, product, sale — the sale table is cleared last,
which does not respect the declared foreign-key references. -/
theorem delete_existing_records_empties (α : Type) (db : Etl.DW α) :
    Etl.delete_existing_records db =
      { schemaReady := db.schemaReady, customer := [], product := [], sale := [] } ∧
    Etl.deleteOrder = ["customer", "product", "sale"] :=
  ⟨rfl, rfl⟩

/-- C6 amended: when the three `read_csv` calls succeed, each table's load
failure is caught inside its own `insert_*` (the cause is printed), the
remaining loads still run and the run still reaches the final commit and
closes the connection.  But pandas commits or rolls back the shared connection
around every `to_sql`, so the failure is not fully isolated: a failed customer
(first) load rolls back the pending deletes of all three tables and the later
successful loads append to the uncleared product and sale tables, while after
a successful earlier load has committed the deletes, a failed later load
leaves its own table empty and the other tables keep their loaded rows. -/
theorem load_commit_profile (α : Type) (env : Etl.RunEnv α)
    (initial : Etl.DW α) (cs ps ss : List α)
    (hc : env.readCustomers = Except.ok cs)
    (hp : env.readProducts = Except.ok ps)
    (hs : env.readSales = Except.ok ss) :
    (Etl.load_data_to_db env initial).outcome = Except.ok () ∧
    (Etl.load_data_to_db env initial).closed = true ∧
    (Etl.load_data_to_db env initial).committed.schemaReady = true ∧
    (Etl.load_data_to_db env initial).committed.customer =
      (match env.insCustomers with
        | Except.ok _ => cs
        | Except.error _ => initial.customer) ∧
    (Etl.load_data_to_db env initial).committed.product =
      (match env.insCustomers, env.insProducts with
        | Except.ok _, Except.ok _ => ps
        | Except.ok _, Except.error _ => []
        | Except.error _, Except.ok _ => initial.product ++ ps
        | Except.error _, Except.error _ => initial.product) ∧
    (Etl.load_data_to_db env initial).committed.sale =
      (match env.insCustomers, env.insSales with
        | Except.ok _, Except.ok _ => ss
        | Except.ok _, Except.error _ => []
        | Except.error _, Except.ok _ => initial.sale ++ ss
        | Except.error _, Except.error _ => initial.sale) ∧
    (∀ e, env.insCustomers = Except.error e →
      ("Error inserting customer data: " ++ e) ∈ (Etl.load_data_to_db env initial).log) ∧
    (∀ e, env.insProducts = Except.error e →
      ("Error inserting product data: " ++ e) ∈ (Etl.load_data_to_db env initial).log) ∧
    (∀ e, env.insSales = Except.error e →
      ("Error inserting sales data: " ++ e) ∈ (Etl.load_data_to_db env initial).log) := by
  unfold Etl.load_data_to_db
  rw [hc, hp, hs]
  rcases hic : env.insCustomers with _ | ec <;>
    rcases hip : env.insProducts with _ | ep <;>
    rcases his : env.insSales with _ | es <;>
    simp [Etl.insert_customers, Etl.insert_products, Etl.insert_sales,
      Etl.commitConn, Etl.rollbackConn,
      Etl.delete_existing_records, Etl.create_schema, Etl.deleteOrder, Etl.deleteFrom]

/-- C10 amended: if any of the three `read_csv` calls raises, the exception
propagates (there is no except clause) and `conn.commit()` is never reached:
the pending deletes are discarded when the `finally` block closes the
connection, so the three tables keep the contents they had before the run and
the connection is closed on that exit path — but the `CREATE TABLE` statements
of `create_schema` ran in autocommit mode before any transaction opened, so
the schema creation does persist. -/
theorem read_failure_keeps_tables (α : Type) (env : Etl.RunEnv α)
    (initial : Etl.DW α) (e : String)
    (h : env.readCustomers = Except.error e ∨ env.readProducts = Except.error e ∨
         env.readSales = Except.error e) :
    (Etl.load_data_to_db env initial).committed.customer = initial.customer ∧
    (Etl.load_data_to_db env initial).committed.product = initial.product ∧
    (Etl.load_data_to_db env initial).committed.sale = initial.sale ∧
    (Etl.load_data_to_db env initial).committed.schemaReady = true ∧
    (Etl.load_data_to_db env initial).closed = true ∧
    ∃ e2, (Etl.load_data_to_db env initial).outcome = Except.error e2 := by
  unfold Etl.load_data_to_db
  rcases hc : env.readCustomers with ec | cs
  · exact ⟨rfl, rfl, rfl, rfl, rfl, ec, rfl⟩
  dsimp only
  rcases hp : env.readProducts with ep | ps
  · exact ⟨rfl, rfl, rfl, rfl, rfl, ep, rfl⟩
  dsimp only
  rcases hs : env.readSales with es | ss
  · exact ⟨rfl, rfl, rfl, rfl, rfl, es, rfl⟩
  exfalso
  rcases h with h | h | h
  · rw [hc] at h; exact Except.noConfusion h
  · rw [hp] at h; exact Except.noConfusion h
  · rw [hs] at h; exact Except.noConfusion h

/-- C8: when the `ProductID` key column is absent, the products
`remove_duplicates` returns its input unchanged (and leaves the caller's table
unchanged) instead of raising. -/
theorem products_remove_duplicates_graceful (df : DataFrame)
    (h : colIdx df "ProductID" = none) :
    Products.remove_duplicates df = (df, df) := by
  unfold Products.remove_duplicates
  rw [h]

/-- C9: after the customers outlier removal, every remaining row's
`AmountSpent` value is a number strictly between 200 and 10000, and every row
of the input whose value is not a number in that exclusive range is absent
from the output. -/
theorem customers_outlier_range (df : DataFrame) (i : Nat)
    (h : colIdx df "AmountSpent" = some i) :
    ∃ d, (Customers.remove_outliers df).2 = Except.ok d ∧ d.cols = df.cols ∧
      (∀ r ∈ d.rows, ∃ q, cellAt r i = some (Val.num q) ∧ 200 < q ∧ q < 10000) ∧
      (∀ r ∈ df.rows,
        (∀ q, cellAt r i = some (Val.num q) → ¬ (200 < q ∧ q < 10000)) →
        r ∉ d.rows) := by
  unfold Customers.remove_outliers
  rw [h]
  dsimp only
  refine ⟨_, rfl, rfl, ?_, ?_⟩
  · intro r hr
    have := List.of_mem_filter hr
    exact (gtlt_filter_true_iff (cellAt r i) 200 10000).mp this
  · intro r _ hout hmem
    have := List.of_mem_filter hmem
    rcases (gtlt_filter_true_iff (cellAt r i) 200 10000).mp this with ⟨q, hq, hb⟩
    exact hout q hq hb

/-- C4: the products outlier removal computes `Q1` and `Q3` by pandas linear
interpolation over the batch it is given (in `main` this is the table after
duplicate removal and missing-value handling, so with the median already
filled in; being a pure function of that batch, the quartiles are recomputed
on every run), and it keeps exactly the rows whose `UnitPrice` is a number in
the closed interval `[Q1 - 1.5·IQR, Q3 + 1.5·IQR]` with `IQR = Q3 - Q1`. -/
theorem products_outlier_iqr (df : DataFrame) (i : Nat) (q1 q3 : ℚ)
    (h : colIdx df "UnitPrice" = some i)
    (h1 : Products.quantileLin (1/4) (Products.numsOf df i) = some q1)
    (h3 : Products.quantileLin (3/4) (Products.numsOf df i) = some q3) :
    ∃ d, (Products.remove_outliers df).2 = Except.ok d ∧ d.cols = df.cols ∧
      ∀ r, r ∈ d.rows ↔ r ∈ df.rows ∧ ∃ p, cellAt r i = some (Val.num p) ∧
        q1 - (3/2) * (q3 - q1) ≤ p ∧ p ≤ q3 + (3/2) * (q3 - q1) := by
  unfold Products.remove_outliers
  rw [h]
  dsimp only
  rw [h1, h3]
  dsimp only
  refine ⟨_, rfl, rfl, ?_⟩
  intro r
  rw [List.mem_filter]
  exact and_congr_right
    (fun _ => gele_filter_true_iff (cellAt r i) (q1 - (3/2) * (q3 - q1)) (q3 + (3/2) * (q3 - q1)))

/-- C7: both duplicate-removal steps are idempotent (applying the step to its
own output is a no-op), never return more rows than the input has, and never
remove a row whose deduplication key — the whole row for customers, the
`ProductID` cell for products — occurs exactly once in the input. -/
theorem remove_duplicates_algebraic (df : DataFrame) (r : Row) :
    (Customers.remove_duplicates (Customers.remove_duplicates df).2).2 =
      (Customers.remove_duplicates df).2 ∧
    (Customers.remove_duplicates df).2.rows.length ≤ df.rows.length ∧
    (r ∈ df.rows → countOcc r df.rows = 1 →
      r ∈ (Customers.remove_duplicates df).2.rows) ∧
    (Products.remove_duplicates (Products.remove_duplicates df).2).2 =
      (Products.remove_duplicates df).2 ∧
    (Products.remove_duplicates df).2.rows.length ≤ df.rows.length ∧
    (∀ i, colIdx df "ProductID" = some i → r ∈ df.rows →
      countOcc (cellAt r i) (df.rows.map (fun x => cellAt x i)) = 1 →
      r ∈ (Products.remove_duplicates df).2.rows) := by
  refine ⟨?_, ?_, ?_, ?_, ?_, ?_⟩
  · simp [Customers.remove_duplicates, dedupBy_idem]
  · simpa [Customers.remove_duplicates, dedupBy] using dedupByAux_length_le id [] df.rows
  · intro hr hcount
    have hcount2 : countOcc (id r) (df.rows.map id) = 1 := by simpa using hcount
    simpa [Customers.remove_duplicates] using mem_dedupBy_of_count_one id df.rows r hr hcount2
  · rcases hcol : colIdx df "ProductID" with _ | i
    · simp [Products.remove_duplicates, hcol]
    · have hcol2 :
          colIdx (DataFrame.mk df.cols (dedupBy id (dedupBy (fun x => cellAt x i) df.rows)))
            "ProductID" = some i := hcol
      simp only [Products.remove_duplicates, hcol, hcol2]
      have hK : ((dedupBy (fun x => cellAt x i) df.rows).map (fun x => cellAt x i)).Nodup :=
        nodup_keys_dedupByAux (fun x => cellAt x i) [] df.rows
      have hsub : (dedupBy id (dedupBy (fun x => cellAt x i) df.rows)).Sublist
          (dedupBy (fun x => cellAt x i) df.rows) :=
        dedupByAux_sublist id [] _
      have hKR : ((dedupBy id (dedupBy (fun x => cellAt x i) df.rows)).map
          (fun x => cellAt x i)).Nodup :=
        List.Nodup.sublist (hsub.map (fun x => cellAt x i)) hK
      have hRnd : (dedupBy id (dedupBy (fun x => cellAt x i) df.rows)).Nodup :=
        List.Nodup.of_map _ hKR
      have e1 : dedupBy (fun x => cellAt x i)
          (dedupBy id (dedupBy (fun x => cellAt x i) df.rows)) =
          dedupBy id (dedupBy (fun x => cellAt x i) df.rows) :=
        dedupBy_eq_self_of_nodup_keys _ _ hKR
      have e2 : dedupBy id (dedupBy id (dedupBy (fun x => cellAt x i) df.rows)) =
          dedupBy id (dedupBy (fun x => cellAt x i) df.rows) :=
        dedupBy_eq_self_of_nodup_keys id _ (by rw [List.map_id]; exact hRnd)
      simp [e1, e2]
  · rcases hcol : colIdx df "ProductID" with _ | i
    · simp [Products.remove_duplicates, hcol]
    · simp only [Products.remove_duplicates, hcol]
      exact Nat.le_trans (dedupByAux_length_le id [] _)
        (dedupByAux_length_le (fun x => cellAt x i) [] df.rows)
  · intro i hcol hr hcount
    simp only [Products.remove_duplicates, hcol]
    have step1 : r ∈ dedupBy (fun x => cellAt x i) df.rows :=
      mem_dedupBy_of_count_one (fun x => cellAt x i) df.rows r hr hcount
    have hK : ((dedupBy (fun x => cellAt x i) df.rows).map (fun x => cellAt x i)).Nodup :=
      nodup_keys_dedupByAux (fun x => cellAt x i) [] df.rows
    have hnd : (dedupBy (fun x => cellAt x i) df.rows).Nodup := List.Nodup.of_map _ hK
    have e : dedupBy id (dedupBy (fun x => cellAt x i) df.rows) =
        dedupBy (fun x => cellAt x i) df.rows :=
      dedupBy_eq_self_of_nodup_keys id _ (by rw [List.map_id]; exact hnd)
    rw [e]
    exact step1

/-! ### Witnesses: the theorems above applied at concrete inputs -/

/-- A products table with a missing product name and a missing unit price. -/
def prodHmvInput : DataFrame :=
  { cols := ["ProductID", "ProductName", "Category", "UnitPrice"],
    rows := [[some (Val.num 9), none, some (Val.str "toys"), none],
             [some (Val.num 3), some (Val.str "cube"), some (Val.str "games"), some (Val.num 4)]] }

/-- The caller's table after `Products.handle_missing_values prodHmvInput`. -/
def prodHmvCleaned : DataFrame :=
  { cols := ["ProductID", "ProductName", "Category", "UnitPrice"],
    rows := [[some (Val.num 9), some (Val.str "Unknown Product"), some (Val.str "toys"), some (Val.num 4)],
             [some (Val.num 3), some (Val.str "cube"), some (Val.str "games"), some (Val.num 4)]] }

theorem cleaning_steps_mutation_profile_witness :
    (Products.handle_missing_values prodHmvInput).1 = prodHmvCleaned :=
  (cleaning_steps_mutation_profile prodHmvInput).2.2.2.2.2.2 prodHmvCleaned (by rfl)

/-- Environment of a warehouse run in which every read succeeds and the
product insert raises a constraint violation. -/
def envInsertFail : Etl.RunEnv Nat :=
  { readCustomers := Except.ok [1], readProducts := Except.ok [2], readSales := Except.ok [3],
    insCustomers := Except.ok (), insProducts := Except.error "UNIQUE constraint failed",
    insSales := Except.ok () }

/-- A committed warehouse state from an earlier run. -/
def dwPrior : Etl.DW Nat :=
  { schemaReady := true, customer := [7], product := [8], sale := [9] }

/-- Environment of a run in which the very first load (customer) fails and
the later two succeed. -/
def envFirstFail : Etl.RunEnv Nat :=
  { readCustomers := Except.ok [1], readProducts := Except.ok [2], readSales := Except.ok [3],
    insCustomers := Except.error "UNIQUE constraint failed: customer.customer_id",
    insProducts := Except.ok (), insSales := Except.ok () }

/-- C6 counterexample: the claim says a constraint violation is isolated to
its own table.  When the customer (first) load fails, pandas' rollback undoes
the pending deletes of all three tables, so although the product and sale
loads succeed, the committed product and sale tables still hold the stale
rows of the previous run next to the new ones — the committed product table is
`[8, 2]`, not the freshly loaded `[2]`. -/
theorem load_failure_rolls_back_deletes :
    (Etl.load_data_to_db envFirstFail dwPrior).committed.customer = [7] ∧
    (Etl.load_data_to_db envFirstFail dwPrior).committed.product = [8, 2] ∧
    (Etl.load_data_to_db envFirstFail dwPrior).committed.sale = [9, 3] ∧
    (Etl.load_data_to_db envFirstFail dwPrior).committed.product ≠ [2] := by
  decide

theorem load_commit_profile_witness :
    (Etl.load_data_to_db envInsertFail dwPrior).outcome = Except.ok () ∧
    (Etl.load_data_to_db envInsertFail dwPrior).closed = true ∧
    (Etl.load_data_to_db envInsertFail dwPrior).committed.schemaReady = true ∧
    (Etl.load_data_to_db envInsertFail dwPrior).committed.customer =
      (match envInsertFail.insCustomers with
        | Except.ok _ => [1]
        | Except.error _ => dwPrior.customer) ∧
    (Etl.load_data_to_db envInsertFail dwPrior).committed.product =
      (match envInsertFail.insCustomers, envInsertFail.insProducts with
        | Except.ok _, Except.ok _ => [2]
        | Except.ok _, Except.error _ => []
        | Except.error _, Except.ok _ => dwPrior.product ++ [2]
        | Except.error _, Except.error _ => dwPrior.product) ∧
    (Etl.load_data_to_db envInsertFail dwPrior).committed.sale =
      (match envInsertFail.insCustomers, envInsertFail.insSales with
        | Except.ok _, Except.ok _ => [3]
        | Except.ok _, Except.error _ => []
        | Except.error _, Except.ok _ => dwPrior.sale ++ [3]
        | Except.error _, Except.error _ => dwPrior.sale) ∧
    (∀ e, envInsertFail.insCustomers = Except.error e →
      ("Error inserting customer data: " ++ e) ∈ (Etl.load_data_to_db envInsertFail dwPrior).log) ∧
    (∀ e, envInsertFail.insProducts = Except.error e →
      ("Error inserting product data: " ++ e) ∈ (Etl.load_data_to_db envInsertFail dwPrior).log) ∧
    (∀ e, envInsertFail.insSales = Except.error e →
      ("Error inserting sales data: " ++ e) ∈ (Etl.load_data_to_db envInsertFail dwPrior).log) :=
  load_commit_profile Nat envInsertFail dwPrior [1] [2] [3] rfl rfl rfl

/-- Environment of a warehouse run in which reading the prepared products CSV
raises. -/
def envReadFail : Etl.RunEnv Nat :=
  { readCustomers := Except.ok [1],
    readProducts := Except.error "FileNotFoundError: products_cleaned.csv",
    readSales := Except.ok [3],
    insCustomers := Except.ok (), insProducts := Except.ok (), insSales := Except.ok () }

/-- A fresh warehouse file: no tables created yet, nothing stored. -/
def dwFresh : Etl.DW Nat :=
  { schemaReady := false, customer := [], product := [], sale := [] }

/-- C10 counterexample: the claim says that on a `read_csv` failure the schema
creation is not committed and the warehouse keeps the state it had.  On a
fresh warehouse file the `CREATE TABLE` statements persist (they autocommit
before any transaction opens), so after the failed run the committed state
differs from the pre-run state: the schema now exists. -/
theorem read_failure_schema_persists :
    (Etl.load_data_to_db envReadFail dwFresh).committed.schemaReady = true ∧
    dwFresh.schemaReady = false ∧
    (Etl.load_data_to_db envReadFail dwFresh).committed ≠ dwFresh := by
  decide

theorem read_failure_keeps_tables_witness :
    (Etl.load_data_to_db envReadFail dwPrior).committed.customer = dwPrior.customer ∧
    (Etl.load_data_to_db envReadFail dwPrior).committed.product = dwPrior.product ∧
    (Etl.load_data_to_db envReadFail dwPrior).committed.sale = dwPrior.sale ∧
    (Etl.load_data_to_db envReadFail dwPrior).committed.schemaReady = true ∧
    (Etl.load_data_to_db envReadFail dwPrior).closed = true ∧
    ∃ e2, (Etl.load_data_to_db envReadFail dwPrior).outcome = Except.error e2 :=
  read_failure_keeps_tables Nat envReadFail dwPrior
    "FileNotFoundError: products_cleaned.csv" (Or.inr (Or.inl rfl))

/-- A products table without the `ProductID` key column. -/
def noKeyProducts : DataFrame :=
  { cols := ["name"], rows := [[some (Val.str "x")]] }

theorem products_remove_duplicates_graceful_witness :
    Products.remove_duplicates noKeyProducts = (noKeyProducts, noKeyProducts) :=
  products_remove_duplicates_graceful noKeyProducts rfl

/-- A customers table with an in-range, an at-bound and a missing amount. -/
def custAmounts : DataFrame :=
  { cols := ["AmountSpent"],
    rows := [[some (Val.num 50)], [some (Val.num 5000)], [none]] }

theorem customers_outlier_range_witness :
    ∃ d, (Customers.remove_outliers custAmounts).2 = Except.ok d ∧ d.cols = custAmounts.cols ∧
      (∀ r ∈ d.rows, ∃ q, cellAt r 0 = some (Val.num q) ∧ 200 < q ∧ q < 10000) ∧
      (∀ r ∈ custAmounts.rows,
        (∀ q, cellAt r 0 = some (Val.num q) → ¬ (200 < q ∧ q < 10000)) →
        r ∉ d.rows) :=
  customers_outlier_range custAmounts 0 rfl

/-- The unit-price scenario of the spec: `[10, 12, 11, 13, 1000]`. -/
def prodPrices : DataFrame :=
  { cols := ["UnitPrice"],
    rows := [[some (Val.num 10)], [some (Val.num 12)], [some (Val.num 11)],
             [some (Val.num 13)], [some (Val.num 1000)]] }

theorem quartile1_eval : Products.quantileLin (1/4) (Products.numsOf prodPrices 0) = some 11 := by
  have hn : Products.numsOf prodPrices 0 = [10, 12, 11, 13, 1000] := rfl
  have hs : List.insertionSort (fun a b => a ≤ b) [10, 12, 11, 13, (1000 : ℚ)] =
      [10, 11, 12, 13, 1000] := by decide
  unfold Products.quantileLin
  rw [hn, hs]
  norm_num [Rat.floor]

theorem quartile3_eval : Products.quantileLin (3/4) (Products.numsOf prodPrices 0) = some 13 := by
  have hn : Products.numsOf prodPrices 0 = [10, 12, 11, 13, 1000] := rfl
  have hs : List.insertionSort (fun a b => a ≤ b) [10, 12, 11, 13, (1000 : ℚ)] =
      [10, 11, 12, 13, 1000] := by decide
  unfold Products.quantileLin
  rw [hn, hs]
  norm_num [Rat.floor]
  simp only [show Int.toNat 3 = 3 from rfl, List.getElem_cons_succ, List.getElem_cons_zero]
  norm_num

theorem products_outlier_iqr_witness :
    ∃ d, (Products.remove_outliers prodPrices).2 = Except.ok d ∧ d.cols = prodPrices.cols ∧
      ∀ r, r ∈ d.rows ↔ r ∈ prodPrices.rows ∧ ∃ p, cellAt r 0 = some (Val.num p) ∧
        (11 : ℚ) - (3/2) * (13 - 11) ≤ p ∧ p ≤ (13 : ℚ) + (3/2) * (13 - 11) :=
  products_outlier_iqr prodPrices 0 11 13 rfl quartile1_eval quartile3_eval

/-- A products table whose key column has a duplicated and a unique id. -/
def dupProducts : DataFrame :=
  { cols := ["ProductID"],
    rows := [[some (Val.num 1)], [some (Val.num 1)], [some (Val.num 2)]] }

theorem remove_duplicates_algebraic_witness :
    [some (Val.num 2)] ∈ (Customers.remove_duplicates dupProducts).2.rows ∧
    [some (Val.num 2)] ∈ (Products.remove_duplicates dupProducts).2.rows :=
  ⟨(remove_duplicates_algebraic dupProducts [some (Val.num 2)]).2.2.1 (by decide) (by decide),
   (remove_duplicates_algebraic dupProducts [some (Val.num 2)]).2.2.2.2.2 0 rfl
     (by decide) (by decide)⟩
